import Mathlib

/-!
Verification development for the gaussmap repository.

The repository generates Gauss-map animations for parametric surfaces.
Its core pipeline parses three coordinate expressions and four range
bounds, differentiates the coordinates symbolically, forms the cross
product of the partial derivatives, normalizes it, and exposes a numeric
evaluator.  The animation-engine wrapper (manim) is external.

The gaussmap Python package itself (gaussmap/scene.py, gaussmap/utils.py)
is not among the available source files; only the notebook driving it,
the CI workflow, the helper scripts and the packaging metadata are.
Definitions for the evaluator side are therefore modelled from the
specification and marked as such; definitions for the notebook glue and
the scripts are translated from those source files directly.

Floating-point doubles are modelled by real numbers; shell and Python
scripts are modelled as pure functions from their inputs to a record of
their observable effects (printed lines, exit status, spawned command).
-/

namespace Gaussmap

/-- The two reserved free variables of a surface parameterization. -/
inductive Var where
  | u
  | v
deriving DecidableEq

/-- Modelled from the spec: a SymbolicExpression is an algebraic
expression tree over the two named free variables u and v, supporting
trigonometric, hyperbolic and exponential functions, the constant pi,
the four arithmetic operators and (natural-number) exponentiation.
In the repository this role is played by sympy expression trees built
by sympify; the package code holding them is absent from the sources. -/
inductive Expr where
  | const : ℚ → Expr
  | piT : Expr
  | var : Var → Expr
  | neg : Expr → Expr
  | add : Expr → Expr → Expr
  | sub : Expr → Expr → Expr
  | mul : Expr → Expr → Expr
  | div : Expr → Expr → Expr
  | pow : Expr → ℕ → Expr
  | sin : Expr → Expr
  | cos : Expr → Expr
  | tan : Expr → Expr
  | sinh : Expr → Expr
  | cosh : Expr → Expr
  | tanh : Expr → Expr
  | exp : Expr → Expr
deriving DecidableEq

/-- Numeric evaluation of an expression at a sample (u, v).
Doubles are modelled as real numbers; division is Lean real division
(total, with x / 0 = 0, a junk value never reached by the claims). -/
noncomputable def Expr.evalAt : Expr → ℝ → ℝ → ℝ
  | .const q, _, _ => (q : ℝ)
  | .piT, _, _ => Real.pi
  | .var .u, u, _ => u
  | .var .v, _, v => v
  | .neg a, u, v => -(a.evalAt u v)
  | .add a b, u, v => a.evalAt u v + b.evalAt u v
  | .sub a b, u, v => a.evalAt u v - b.evalAt u v
  | .mul a b, u, v => a.evalAt u v * b.evalAt u v
  | .div a b, u, v => a.evalAt u v / b.evalAt u v
  | .pow a n, u, v => a.evalAt u v ^ n
  | .sin a, u, v => Real.sin (a.evalAt u v)
  | .cos a, u, v => Real.cos (a.evalAt u v)
  | .tan a, u, v => Real.tan (a.evalAt u v)
  | .sinh a, u, v => Real.sinh (a.evalAt u v)
  | .cosh a, u, v => Real.cosh (a.evalAt u v)
  | .tanh a, u, v => Real.tanh (a.evalAt u v)
  | .exp a, u, v => Real.exp (a.evalAt u v)

/-- Modelled from the spec: exact symbolic differentiation with respect
to one of the two variables — product rule, quotient rule, chain rule
and the standard derivative table for the supported function set.  In
the repository this is sympy diff, called by the absent scene code. -/
def Expr.derivative : Expr → Var → Expr
  | .const _, _ => .const 0
  | .piT, _ => .const 0
  | .var w, i => if w = i then .const 1 else .const 0
  | .neg a, i => .neg (a.derivative i)
  | .add a b, i => .add (a.derivative i) (b.derivative i)
  | .sub a b, i => .sub (a.derivative i) (b.derivative i)
  | .mul a b, i => .add (.mul (a.derivative i) b) (.mul a (b.derivative i))
  | .div a b, i =>
      .div (.sub (.mul (a.derivative i) b) (.mul a (b.derivative i))) (.mul b b)
  | .pow a n, i => .mul (.const n) (.mul (.pow a (n - 1)) (a.derivative i))
  | .sin a, i => .mul (.cos a) (a.derivative i)
  | .cos a, i => .neg (.mul (.sin a) (a.derivative i))
  | .tan a, i => .div (a.derivative i) (.mul (.cos a) (.cos a))
  | .sinh a, i => .mul (.cosh a) (a.derivative i)
  | .cosh a, i => .mul (.sinh a) (a.derivative i)
  | .tanh a, i =>
      .div (a.derivative i) (.mul (.cosh a) (.cosh a))
  | .exp a, i => .mul (.exp a) (a.derivative i)

/-- A 3-vector of reals (the model of a numpy double 3-vector). -/
structure Vec3 where
  x : ℝ
  y : ℝ
  z : ℝ

/-- Vector cross product. -/
def cross (a b : Vec3) : Vec3 :=
  ⟨a.y * b.z - a.z * b.y, a.z * b.x - a.x * b.z, a.x * b.y - a.y * b.x⟩

/-- Euclidean norm of a 3-vector. -/
noncomputable def norm3 (a : Vec3) : ℝ :=
  Real.sqrt (a.x ^ 2 + a.y ^ 2 + a.z ^ 2)

/-- Scalar multiple of a 3-vector. -/
def smul3 (k : ℝ) (a : Vec3) : Vec3 :=
  ⟨k * a.x, k * a.y, k * a.z⟩

/-- Modelled from the spec: a validated surface parameterization — one
symbolic expression per spatial axis plus the two numeric ranges, each
with min strictly below max. -/
structure SurfaceParameterization where
  ex : Expr
  ey : Expr
  ez : Expr
  uMin : ℝ
  uMax : ℝ
  vMin : ℝ
  vMax : ℝ
  hu : uMin < uMax
  hv : vMin < vMax

/-- A triple of symbolic expressions (a symbolic 3-vector). -/
def ExprVec : Type := Expr × Expr × Expr

/-- Componentwise numeric evaluation of a symbolic 3-vector. -/
noncomputable def evalVec (e : ExprVec) (u v : ℝ) : Vec3 :=
  ⟨e.1.evalAt u v, e.2.1.evalAt u v, e.2.2.evalAt u v⟩

/-- Symbolic cross product of two symbolic 3-vectors. -/
def exprCross (a b : ExprVec) : ExprVec :=
  (.sub (.mul a.2.1 b.2.2) (.mul a.2.2 b.2.1),
   .sub (.mul a.2.2 b.1) (.mul a.1 b.2.2),
   .sub (.mul a.1 b.2.1) (.mul a.2.1 b.1))

/-- Modelled from the spec: the NormalField derived from a surface
parameterization — the two symbolic partial-derivative 3-vectors and
the symbolic raw cross product, computed once and never mutated. -/
def mkNormalField (P : SurfaceParameterization) : ExprVec × ExprVec × ExprVec :=
  let xu : ExprVec := (P.ex.derivative .u, P.ey.derivative .u, P.ez.derivative .u)
  let xv : ExprVec := (P.ex.derivative .v, P.ey.derivative .v, P.ez.derivative .v)
  (xu, xv, exprCross xu xv)

/-- The symbolic partial derivative with respect to u, as a 3-vector. -/
def xuOf (P : SurfaceParameterization) : ExprVec := (mkNormalField P).1

/-- The symbolic partial derivative with respect to v, as a 3-vector. -/
def xvOf (P : SurfaceParameterization) : ExprVec := (mkNormalField P).2.1

/-- The numeric raw cross product N_raw at a sample: the partial
derivative vectors are evaluated to doubles and crossed numerically. -/
noncomputable def rawCross (P : SurfaceParameterization) (u v : ℝ) : Vec3 :=
  cross (evalVec (xuOf P) u v) (evalVec (xvOf P) u v)

/-- Modelled from the spec: the degenerate-point threshold (the spec
suggests 1e-9 and leaves the exact value configurable). -/
noncomputable def epsilon : ℝ := 1 / 10 ^ 9

/-- Result of one evaluation: a unit normal vector, or the degenerate
sentinel for samples whose raw cross product is (near) zero. -/
inductive EvalResult where
  | degenerate
  | normal : Vec3 → EvalResult

/-- Modelled from the spec: evaluate(u, v) — substitute the sample into
x_u and x_v, take the numeric cross product, and return the normalized
vector when its norm exceeds the epsilon threshold, the degenerate
sentinel otherwise (never an exception). -/
noncomputable def evaluate (P : SurfaceParameterization) (u v : ℝ) : EvalResult :=
  let c := rawCross P u v
  if epsilon < norm3 c then .normal (smul3 (1 / norm3 c) c) else .degenerate

/-- Modelled from the spec: evaluation in explicit state-passing form,
to express that the evaluator reads its cached NormalField but never
mutates it.  The state is the cached triple (x_u, x_v, N_raw); the call
returns the (unchanged) state together with the evaluation result. -/
noncomputable def evaluateSt (st : ExprVec × ExprVec × ExprVec) (u v : ℝ) :
    (ExprVec × ExprVec × ExprVec) × EvalResult :=
  let c := cross (evalVec st.1 u v) (evalVec st.2.1 u v)
  (st, if epsilon < norm3 c then .normal (smul3 (1 / norm3 c) c) else .degenerate)

/-- The cone parameterization x = u cos v, y = u sin v, z = u from the
spec's degeneracy scenario, on ranges wide enough to contain the apex
sample u = 0. -/
noncomputable def coneP : SurfaceParameterization where
  ex := .mul (.var .u) (.cos (.var .v))
  ey := .mul (.var .u) (.sin (.var .v))
  ez := .var .u
  uMin := -1
  uMax := 2
  vMin := 0
  vMax := 2 * Real.pi
  hu := by norm_num
  hv := by positivity

/-- The hyperbolic paraboloid x = u, y = v, z = u² − v² over
u ∈ [−2, 2], v ∈ [−2, 2] of the spec's end-to-end scenario. -/
def hypParab : SurfaceParameterization where
  ex := .var .u
  ey := .var .v
  ez := .sub (.pow (.var .u) 2) (.pow (.var .v) 2)
  uMin := -2
  uMax := 2
  vMin := -2
  vMax := 2
  hu := by norm_num
  hv := by norm_num

/-- The monkey saddle x = u, y = v, z = u³ − 3uv² of the spec's
end-to-end scenario. -/
def monkeyP : SurfaceParameterization where
  ex := .var .u
  ey := .var .v
  ez := .sub (.pow (.var .u) 3) (.mul (.mul (.const 3) (.var .u)) (.pow (.var .v) 2))
  uMin := -3
  uMax := 3
  vMin := -3
  vMax := 3
  hu := by norm_num
  hv := by norm_num

/-- Python exception types that the notebook glue can see escape from
_get_function: sympy's SympifyError from sympify on malformed input, and
TypeError from float() on an expression that is not a constant.
(TypeError, ValueError, SyntaxError and AttributeError are caught by the
same except clause; the model folds the float() failure into one case.) -/
inductive PyError where
  | sympifyError : String → PyError
  | typeError : String → PyError
deriving DecidableEq

/-- Tokens of the textual expression language: numeric literals,
identifiers, the arithmetic operators (with ** and ^ both meaning
power, as sympify converts ^ to ** by default) and parentheses. -/
inductive Tok where
  | num : ℚ → Tok
  | ident : String → Tok
  | plusT : Tok
  | minusT : Tok
  | starT : Tok
  | slashT : Tok
  | powT : Tok
  | lparen : Tok
  | rparen : Tok
deriving DecidableEq

/-- Value of a list of decimal digit characters. -/
def digitsVal (cs : List Char) : ℕ :=
  cs.foldl (fun a c => 10 * a + (c.toNat - 48)) 0

/-- Modelled from the spec: the lexer of the textual expression grammar
of section 4.1 (numeric literals, the two reserved variable names, the
named functions and pi, arithmetic operators, exponentiation,
parentheses).  In the repository lexing is done inside sympy's sympify,
an external dependency whose code is not part of the repository. -/
def tokenize (fuel : ℕ) (cs : List Char) : Option (List Tok) :=
  match fuel, cs with
  | 0, _ => none
  | _, [] => some []
  | fuel + 1, c :: rest =>
    if c = ' ' then tokenize fuel rest
    else if c.isDigit then
      let ds := List.takeWhile Char.isDigit (c :: rest)
      let rest1 := List.dropWhile Char.isDigit (c :: rest)
      match rest1 with
      | '.' :: rest2 =>
        let fs := List.takeWhile Char.isDigit rest2
        let rest3 := List.dropWhile Char.isDigit rest2
        (tokenize fuel rest3).map
          (fun ts => Tok.num ((digitsVal ds : ℚ) + (digitsVal fs : ℚ) / (10 : ℚ) ^ fs.length) :: ts)
      | _ =>
        (tokenize fuel rest1).map (fun ts => Tok.num (digitsVal ds : ℚ) :: ts)
    else if c.isAlpha then
      let as := List.takeWhile Char.isAlpha (c :: rest)
      let rest1 := List.dropWhile Char.isAlpha (c :: rest)
      (tokenize fuel rest1).map (fun ts => Tok.ident (String.mk as) :: ts)
    else if c = '+' then (tokenize fuel rest).map (fun ts => Tok.plusT :: ts)
    else if c = '-' then (tokenize fuel rest).map (fun ts => Tok.minusT :: ts)
    else if c = '*' then
      match rest with
      | '*' :: rest2 => (tokenize fuel rest2).map (fun ts => Tok.powT :: ts)
      | _ => (tokenize fuel rest).map (fun ts => Tok.starT :: ts)
    else if c = '^' then (tokenize fuel rest).map (fun ts => Tok.powT :: ts)
    else if c = '/' then (tokenize fuel rest).map (fun ts => Tok.slashT :: ts)
    else if c = '(' then (tokenize fuel rest).map (fun ts => Tok.lparen :: ts)
    else if c = ')' then (tokenize fuel rest).map (fun ts => Tok.rparen :: ts)
    else none

/-- The fixed function-name table of the supported set. -/
def funcOf (s : String) : Option (Expr → Expr) :=
  if s = "sin" then some Expr.sin
  else if s = "cos" then some Expr.cos
  else if s = "tan" then some Expr.tan
  else if s = "sinh" then some Expr.sinh
  else if s = "cosh" then some Expr.cosh
  else if s = "tanh" then some Expr.tanh
  else if s = "exp" then some Expr.exp
  else none

mutual

/-- Additive level of the recursive-descent grammar. -/
def parseE (fuel : ℕ) (ts : List Tok) : Option (Expr × List Tok) :=
  match fuel with
  | 0 => none
  | fuel + 1 =>
    match parseT fuel ts with
    | none => none
    | some (e, ts1) => parseEops fuel e ts1

/-- Left-associated chain of + and − operators. -/
def parseEops (fuel : ℕ) (e : Expr) (ts : List Tok) : Option (Expr × List Tok) :=
  match fuel with
  | 0 => none
  | fuel + 1 =>
    match ts with
    | .plusT :: ts1 =>
      match parseT fuel ts1 with
      | none => none
      | some (e2, ts2) => parseEops fuel (Expr.add e e2) ts2
    | .minusT :: ts1 =>
      match parseT fuel ts1 with
      | none => none
      | some (e2, ts2) => parseEops fuel (Expr.sub e e2) ts2
    | _ => some (e, ts)

/-- Multiplicative level of the grammar. -/
def parseT (fuel : ℕ) (ts : List Tok) : Option (Expr × List Tok) :=
  match fuel with
  | 0 => none
  | fuel + 1 =>
    match parseU fuel ts with
    | none => none
    | some (e, ts1) => parseTops fuel e ts1

/-- Left-associated chain of * and / operators. -/
def parseTops (fuel : ℕ) (e : Expr) (ts : List Tok) : Option (Expr × List Tok) :=
  match fuel with
  | 0 => none
  | fuel + 1 =>
    match ts with
    | .starT :: ts1 =>
      match parseU fuel ts1 with
      | none => none
      | some (e2, ts2) => parseTops fuel (Expr.mul e e2) ts2
    | .slashT :: ts1 =>
      match parseU fuel ts1 with
      | none => none
      | some (e2, ts2) => parseTops fuel (Expr.div e e2) ts2
    | _ => some (e, ts)

/-- Unary minus. -/
def parseU (fuel : ℕ) (ts : List Tok) : Option (Expr × List Tok) :=
  match fuel with
  | 0 => none
  | fuel + 1 =>
    match ts with
    | .minusT :: ts1 =>
      match parseU fuel ts1 with
      | none => none
      | some (e, ts2) => some (Expr.neg e, ts2)
    | _ => parseP fuel ts

/-- Power level: an atom optionally raised to a natural-number literal
exponent (the model restricts exponents to natural-number literals,
the only form the repository's surfaces use). -/
def parseP (fuel : ℕ) (ts : List Tok) : Option (Expr × List Tok) :=
  match fuel with
  | 0 => none
  | fuel + 1 =>
    match parseA fuel ts with
    | none => none
    | some (a, ts1) =>
      match ts1 with
      | .powT :: ts2 =>
        match ts2 with
        | .num q :: ts3 =>
          if q.den = 1 ∧ 0 ≤ q.num then some (Expr.pow a q.num.toNat, ts3) else none
        | _ => none
      | _ => some (a, ts1)

/-- Atoms: numeric literals, the reserved variables u and v, pi, a
known function applied to a parenthesized argument, or a parenthesized
subexpression; any other identifier is rejected. -/
def parseA (fuel : ℕ) (ts : List Tok) : Option (Expr × List Tok) :=
  match fuel with
  | 0 => none
  | fuel + 1 =>
    match ts with
    | .num q :: ts1 => some (Expr.const q, ts1)
    | .ident s :: ts1 =>
      if s = "u" then some (Expr.var .u, ts1)
      else if s = "v" then some (Expr.var .v, ts1)
      else if s = "pi" then some (Expr.piT, ts1)
      else
        match funcOf s with
        | none => none
        | some f =>
          match ts1 with
          | .lparen :: ts2 =>
            match parseE fuel ts2 with
            | none => none
            | some (e, .rparen :: ts3) => some (f e, ts3)
            | some _ => none
          | _ => none
    | .lparen :: ts1 =>
      match parseE fuel ts1 with
      | none => none
      | some (e, .rparen :: ts2) => some (e, ts2)
      | some _ => none
    | _ => none

end

/-- Model of sym.sympify on a textual input: lex and parse the whole
string, returning the expression tree or a SympifyError naming the
offending input (as the sympy diagnostic embeds the failed source). -/
def sympify (s : String) : Except PyError Expr :=
  match tokenize (s.data.length + 1) s.data with
  | none => .error (.sympifyError s)
  | some ts =>
    match parseE (5 * ts.length + 5) ts with
    | some (e, []) => .ok e
    | _ => .error (.sympifyError s)

/-- Constant folding of an expression with no free variable: the model
of what Python float() can extract from a sympy expression.  Returns
none when the expression mentions u or v. -/
noncomputable def evalConst : Expr → Option ℝ
  | .const q => some ((q : ℝ))
  | .piT => some Real.pi
  | .var _ => none
  | .neg a => (evalConst a).map (fun x => -x)
  | .add a b => (evalConst a).bind (fun x => (evalConst b).map (fun y => x + y))
  | .sub a b => (evalConst a).bind (fun x => (evalConst b).map (fun y => x - y))
  | .mul a b => (evalConst a).bind (fun x => (evalConst b).map (fun y => x * y))
  | .div a b => (evalConst a).bind (fun x => (evalConst b).map (fun y => x / y))
  | .pow a n => (evalConst a).map (fun x => x ^ n)
  | .sin a => (evalConst a).map Real.sin
  | .cos a => (evalConst a).map Real.cos
  | .tan a => (evalConst a).map Real.tan
  | .sinh a => (evalConst a).map Real.sinh
  | .cosh a => (evalConst a).map Real.cosh
  | .tanh a => (evalConst a).map Real.tanh
  | .exp a => (evalConst a).map Real.exp

/-- Model of Python float() applied to a sympy expression: the numeric
value of a constant expression, or a TypeError for an expression that
still mentions a free variable. -/
noncomputable def floatOf (e : Expr) : Except PyError ℝ :=
  match evalConst e with
  | some r => .ok r
  | none => .error (.typeError ("Cannot convert expression to float"))

/-- float(sym.sympify(s)), the conversion _get_function applies to each
range bound string. -/
noncomputable def floatOfString (s : String) : Except PyError ℝ :=
  match sympify s with
  | .error e => .error e
  | .ok e => floatOf e

/-- Model of the notebook's _get_function: builds u_range from u_min
and u_max, then v_range, then the coordinate expression triple, in the
source's evaluation order, propagating the first Python exception.  It
performs no validation beyond what sympify and float raise — in
particular no finiteness and no min < max check on the ranges. -/
noncomputable def getFunction (x y z uMin uMax vMin vMax : String) :
    Except PyError ((Expr × Expr × Expr) × (ℝ × ℝ) × (ℝ × ℝ)) :=
  match floatOfString uMin with
  | .error e => .error e
  | .ok a =>
    match floatOfString uMax with
    | .error e => .error e
    | .ok b =>
      match floatOfString vMin with
      | .error e => .error e
      | .ok c =>
        match floatOfString vMax with
        | .error e => .error e
        | .ok d =>
          match sympify x with
          | .error e => .error e
          | .ok ex =>
            match sympify y with
            | .error e => .error e
            | .ok ey =>
              match sympify z with
              | .error e => .error e
              | .ok ez => .ok ((ex, ey, ez), (a, b), (c, d))

/-- The Python diagnostic text carried by an exception. -/
def errText : PyError → String
  | .sympifyError s => "Sympify of expression " ++ s ++ " failed"
  | .typeError m => m

/-- Observable outcome of CustomScene.__init__: either the process is
terminated through sys.exit with a message, or construction proceeds
with the parsed parameterization. -/
inductive InitOutcome where
  | exitProcess : String → InitOutcome
  | proceed : (Expr × Expr × Expr) → (ℝ × ℝ) → (ℝ × ℝ) → InitOutcome

/-- Model of the notebook's CustomScene.__init__: call _get_function;
on any of the caught exception types, sys.exit with the fixed message
prefix followed by the exception text (terminating the process);
otherwise print the confirmation lines and proceed to the superclass
constructor. -/
noncomputable def customSceneInit (x y z uMin uMax vMin vMax : String) : InitOutcome :=
  match getFunction x y z uMin uMax vMin vMax with
  | .error e => .exitProcess ("Unable to parse parameterization " ++ errText e)
  | .ok (expr, ur, vr) => .proceed expr ur vr

/-- Python int() truncation toward zero on an exact rational value. -/
def pythonTrunc (q : ℚ) : ℤ :=
  if q < 0 then ⌈q⌉ else ⌊q⌋

/-- Model of the parse-coverage script: read lines-covered and
lines-valid from the coverage XML root attributes and print
int((lines_covered / lines_valid) * 100).  Doubles are modelled by
exact rationals. -/
def parseCoverageOutput (linesCovered linesValid : ℕ) : ℤ :=
  pythonTrunc (((linesCovered : ℚ) / (linesValid : ℚ)) * 100)

/-- The two lines printed by the version function of run-scene. -/
def versionLines : List String :=
  ["Manim scene runner version 1.0.0", "Copyright 2024 Jeffrey Tucker"]

/-- The lines printed by the usage function of run-scene (modelled one
printf line per list entry, without trailing newlines). -/
def usageLines : List String :=
  ["usage: run-scene [options] [scene]",
   "\x27scene\x27 is a Python file that has a subclass of manim.Scene",
   "Options:",
   "-h\tdisplay this help and exit",
   "-v\tdisplay the version information and exit"]

/-- Observable effects of one run of the run-scene script: the lines
printed, whether manim was spawned, the scene argument manim received
(none when the unquoted empty variable expands to no argument), and the
script's own exit status (none when the script ends by running manim,
whose status is then propagated). -/
structure RunResult where
  output : List String
  invokedManim : Bool
  manimSceneArg : Option String
  exitCode : Option ℕ

/-- Model of the run-scene shell script: an unset first positional
parameter behaves as the empty string; [ -z $scene ] is true for the
empty string (the unquoted expansion collapses to a one-argument test,
which is also true); the missing-argument branch prints but does not
exit; -v is absent from the getopts optstring, so only -h reaches its
case arm and exits.  The script never shifts, so the first positional
argument is taken as the scene even after option processing. -/
def runScene (args : List String) (python3Found : Bool) : RunResult :=
  if args.headD "" = "-h" then
    { output := versionLines ++ usageLines, invokedManim := false,
      manimSceneArg := none, exitCode := some 1 }
  else
    let scene := args.headD ""
    let pre := if scene = "" then ["Missing scene argument"] ++ usageLines else []
    if python3Found then
      { output := pre, invokedManim := true,
        manimSceneArg := if scene = "" then none else some scene, exitCode := none }
    else
      { output := pre ++ ["python3 not found in PATH"], invokedManim := false,
        manimSceneArg := none, exitCode := some 2 }

theorem norm3_nonneg (a : Vec3) : 0 ≤ norm3 a :=
  Real.sqrt_nonneg _

theorem norm3_smul3 (k : ℝ) (hk : 0 ≤ k) (a : Vec3) :
    norm3 (smul3 k a) = k * norm3 a := by
  unfold norm3 smul3
  rw [show (k * a.x) ^ 2 + (k * a.y) ^ 2 + (k * a.z) ^ 2
        = k ^ 2 * (a.x ^ 2 + a.y ^ 2 + a.z ^ 2) by ring]
  rw [Real.sqrt_mul (by positivity), Real.sqrt_sq hk]

theorem epsilon_pos : 0 < epsilon := by
  unfold epsilon
  norm_num

theorem hypParab_xu : evalVec (xuOf hypParab) 1 1 = ⟨1, 0, 2⟩ := by
  simp [hypParab, xuOf, mkNormalField, Expr.derivative, evalVec, Expr.evalAt]

theorem hypParab_xv : evalVec (xvOf hypParab) 1 1 = ⟨0, 1, -2⟩ := by
  simp [hypParab, xvOf, mkNormalField, Expr.derivative, evalVec, Expr.evalAt]

theorem hypParab_cross : rawCross hypParab 1 1 = ⟨-2, 2, 1⟩ := by
  unfold rawCross
  rw [hypParab_xu, hypParab_xv]
  simp [cross]

theorem hypParab_cross_norm : norm3 (rawCross hypParab 1 1) = 3 := by
  rw [hypParab_cross]
  unfold norm3
  rw [show ((-2 : ℝ) ^ 2 + (2 : ℝ) ^ 2 + (1 : ℝ) ^ 2) = 3 ^ 2 by norm_num]
  exact Real.sqrt_sq (by norm_num)

theorem cone_cross_apex (v : ℝ) : rawCross coneP 0 v = ⟨0, 0, 0⟩ := by
  simp [coneP, rawCross, xuOf, xvOf, mkNormalField, Expr.derivative, evalVec,
    Expr.evalAt, cross]

theorem norm3_zero : norm3 ⟨0, 0, 0⟩ = 0 := by
  unfold norm3
  norm_num

theorem monkeyP_xu : evalVec (xuOf monkeyP) 0 0 = ⟨1, 0, 0⟩ := by
  simp [monkeyP, xuOf, mkNormalField, Expr.derivative, evalVec, Expr.evalAt]

theorem monkeyP_xv : evalVec (xvOf monkeyP) 0 0 = ⟨0, 1, 0⟩ := by
  simp [monkeyP, xvOf, mkNormalField, Expr.derivative, evalVec, Expr.evalAt]

theorem monkeyP_cross : rawCross monkeyP 0 0 = ⟨0, 0, 1⟩ := by
  unfold rawCross
  rw [monkeyP_xu, monkeyP_xv]
  simp [cross]

theorem monkeyP_cross_norm : norm3 (rawCross monkeyP 0 0) = 1 := by
  rw [monkeyP_cross]
  unfold norm3
  norm_num

/-- C1: for every valid SurfaceParameterization and every sample (u, v)
within the declared ranges at which the raw cross product has norm
above the epsilon threshold, evaluate(u, v) returns a vector of
Euclidean norm exactly 1 (hence within the 1e-9 tolerance). -/
theorem C1_evaluate_unit_norm (P : SurfaceParameterization) (u v : ℝ)
    (hu1 : P.uMin ≤ u) (hu2 : u ≤ P.uMax)
    (hv1 : P.vMin ≤ v) (hv2 : v ≤ P.vMax)
    (hc : epsilon < norm3 (rawCross P u v)) :
    ∃ n, evaluate P u v = .normal n ∧ norm3 n = 1 ∧ |norm3 n - 1| ≤ epsilon := by
  have hpos : 0 < norm3 (rawCross P u v) := epsilon_pos.trans hc
  refine ⟨smul3 (1 / norm3 (rawCross P u v)) (rawCross P u v), ?_, ?_, ?_⟩
  · unfold evaluate
    rw [if_pos hc]
  · rw [norm3_smul3 _ (by positivity)]
    field_simp
  · rw [norm3_smul3 _ (by positivity)]
    field_simp
    exact epsilon_pos.le

/-- Witness for C1 at the hyperbolic paraboloid, sample (1, 1). -/
theorem C1_evaluate_unit_norm_witness :
    ∃ n, evaluate hypParab 1 1 = .normal n ∧ norm3 n = 1 ∧ |norm3 n - 1| ≤ epsilon := by
  refine C1_evaluate_unit_norm hypParab 1 1 ?_ ?_ ?_ ?_ ?_
  · show (-2 : ℝ) ≤ 1
    norm_num
  · show (1 : ℝ) ≤ 2
    norm_num
  · show (-2 : ℝ) ≤ 1
    norm_num
  · show (1 : ℝ) ≤ 2
    norm_num
  · rw [hypParab_cross_norm]
    unfold epsilon
    norm_num

/-- C2: whenever the raw cross product has norm at most epsilon,
evaluate returns the degenerate sentinel (it is a total function, not
an exception); in particular, for the cone x = u cos v, y = u sin v,
z = u at u = 0 the numeric cross product is the zero vector, its
magnitude is 0, and evaluate returns the degenerate sentinel. -/
theorem C2_evaluate_degenerate :
    (∀ (P : SurfaceParameterization) (u v : ℝ),
        norm3 (rawCross P u v) ≤ epsilon → evaluate P u v = .degenerate) ∧
    (∀ v : ℝ, rawCross coneP 0 v = ⟨0, 0, 0⟩ ∧
        norm3 (rawCross coneP 0 v) = 0 ∧ evaluate coneP 0 v = .degenerate) := by
  have hdeg : ∀ (P : SurfaceParameterization) (u v : ℝ),
      norm3 (rawCross P u v) ≤ epsilon → evaluate P u v = .degenerate := by
    intro P u v h
    unfold evaluate
    rw [if_neg (not_lt.mpr h)]
  refine ⟨hdeg, fun v => ⟨cone_cross_apex v, ?_, ?_⟩⟩
  · rw [cone_cross_apex v, norm3_zero]
  · exact hdeg coneP 0 v (by rw [cone_cross_apex v, norm3_zero]; exact epsilon_pos.le)

/-- Witness for C2 at the cone apex sample (0, 0). -/
theorem C2_evaluate_degenerate_witness :
    norm3 (rawCross coneP 0 0) ≤ epsilon ∧ evaluate coneP 0 0 = .degenerate := by
  have h0 : norm3 (rawCross coneP 0 0) = 0 := by
    rw [cone_cross_apex 0, norm3_zero]
  exact ⟨h0.le.trans epsilon_pos.le,
    C2_evaluate_degenerate.1 coneP 0 0 (h0.le.trans epsilon_pos.le)⟩

/-- C4: for x = u, y = v, z = u² − v² over [−2, 2]², the sample (1, 1)
gives x_u = (1, 0, 2), x_v = (0, 1, −2), raw cross (−2, 2, 1) and the
normalized result (−2/3, 2/3, 1/3), which is within 10⁻³ of the spec's
approximate value (−0.6667, 0.6667, 0.3333). -/
theorem C4_hyperbolic_paraboloid_sample :
    evalVec (xuOf hypParab) 1 1 = ⟨1, 0, 2⟩ ∧
    evalVec (xvOf hypParab) 1 1 = ⟨0, 1, -2⟩ ∧
    rawCross hypParab 1 1 = ⟨-2, 2, 1⟩ ∧
    evaluate hypParab 1 1 = .normal ⟨-2 / 3, 2 / 3, 1 / 3⟩ ∧
    |(-2 / 3 : ℝ) - (-0.6667)| < 1 / 1000 ∧
    |(2 / 3 : ℝ) - 0.6667| < 1 / 1000 ∧
    |(1 / 3 : ℝ) - 0.3333| < 1 / 1000 := by
  refine ⟨hypParab_xu, hypParab_xv, hypParab_cross, ?_, by rw [abs_sub_lt_iff]; norm_num,
    by rw [abs_sub_lt_iff]; norm_num, by rw [abs_sub_lt_iff]; norm_num⟩
  simp only [evaluate]
  rw [hypParab_cross_norm, hypParab_cross]
  rw [if_pos (by unfold epsilon; norm_num)]
  simp [smul3]
  norm_num

/-- C5: for x = u, y = v, z = u³ − 3uv², the sample (0, 0) gives
x_u = (1, 0, 0), x_v = (0, 1, 0), cross product (0, 0, 1), and the
normalized result exactly (0, 0, 1). -/
theorem C5_monkey_saddle_sample :
    evalVec (xuOf monkeyP) 0 0 = ⟨1, 0, 0⟩ ∧
    evalVec (xvOf monkeyP) 0 0 = ⟨0, 1, 0⟩ ∧
    rawCross monkeyP 0 0 = ⟨0, 0, 1⟩ ∧
    evaluate monkeyP 0 0 = .normal ⟨0, 0, 1⟩ := by
  refine ⟨monkeyP_xu, monkeyP_xv, monkeyP_cross, ?_⟩
  simp only [evaluate]
  rw [monkeyP_cross_norm, monkeyP_cross]
  rw [if_pos (by unfold epsilon; norm_num)]
  simp [smul3]

/-- C6: differentiation is exact symbolic differentiation — it is
linear (additive and respects scalar constants), obeys the product
rule, and on the example u·cos(v) the partial derivative with respect
to u evaluates to cos(v) and the one with respect to v to −u·sin(v),
at every sample point. -/
theorem C6_derivative_exact :
    (∀ (a b : Expr) (i : Var) (u v : ℝ),
        ((Expr.add a b).derivative i).evalAt u v
          = (a.derivative i).evalAt u v + (b.derivative i).evalAt u v) ∧
    (∀ (c : ℚ) (a : Expr) (i : Var) (u v : ℝ),
        ((Expr.mul (.const c) a).derivative i).evalAt u v
          = (c : ℝ) * (a.derivative i).evalAt u v) ∧
    (∀ (a b : Expr) (i : Var) (u v : ℝ),
        ((Expr.mul a b).derivative i).evalAt u v
          = (a.derivative i).evalAt u v * b.evalAt u v
            + a.evalAt u v * (b.derivative i).evalAt u v) ∧
    (∀ u v : ℝ,
        ((Expr.mul (.var .u) (.cos (.var .v))).derivative .u).evalAt u v
          = Real.cos v) ∧
    (∀ u v : ℝ,
        ((Expr.mul (.var .u) (.cos (.var .v))).derivative .v).evalAt u v
          = -(u * Real.sin v)) := by
  refine ⟨?_, ?_, ?_, ?_, ?_⟩
  · intro a b i u v
    simp [Expr.derivative, Expr.evalAt]
  · intro c a i u v
    simp [Expr.derivative, Expr.evalAt]
  · intro a b i u v
    simp [Expr.derivative, Expr.evalAt]
  · intro u v
    simp [Expr.derivative, Expr.evalAt]
  · intro u v
    simp [Expr.derivative, Expr.evalAt]

theorem sympify_one : sympify "1" = .ok (.const 1) := by rfl

theorem sympify_two : sympify "2" = .ok (.const 2) := by rfl

theorem sympify_zero : sympify "0" = .ok (.const 0) := by rfl

theorem sympify_u : sympify "u" = .ok (.var .u) := by rfl

theorem sympify_v : sympify "v" = .ok (.var .v) := by rfl

theorem sympify_malformed_pow : sympify "u**" = .error (.sympifyError "u**") := by rfl

theorem floatOfString_one : floatOfString "1" = .ok ((1 : ℝ)) := by
  unfold floatOfString
  rw [sympify_one]
  simp [floatOf, evalConst]

theorem floatOfString_two : floatOfString "2" = .ok ((2 : ℝ)) := by
  unfold floatOfString
  rw [sympify_two]
  simp [floatOf, evalConst]

theorem floatOfString_zero : floatOfString "0" = .ok ((0 : ℝ)) := by
  unfold floatOfString
  rw [sympify_zero]
  simp [floatOf, evalConst]

theorem getFunction_equal_bounds :
    getFunction "u" "v" "u" "1" "1" "0" "1"
      = .ok ((.var .u, .var .v, .var .u), (1, 1), (0, 1)) := by
  unfold getFunction
  rw [floatOfString_one, floatOfString_zero, sympify_u, sympify_v]

theorem getFunction_malformed :
    getFunction "u**" "v" "u" "1" "2" "0" "1" = .error (.sympifyError "u**") := by
  unfold getFunction
  rw [floatOfString_one, floatOfString_two, floatOfString_zero, sympify_malformed_pow]

/-- C8: the evaluator is pure — an evaluation leaves the cached
NormalField state unchanged, a repeated call with the identical sample
returns the identical result, and the state-passing evaluation agrees
with evaluate. -/
theorem C8_evaluate_pure (P : SurfaceParameterization) (u v : ℝ) :
    (evaluateSt (mkNormalField P) u v).1 = mkNormalField P ∧
    (evaluateSt (mkNormalField P) u v).2
      = (evaluateSt (evaluateSt (mkNormalField P) u v).1 u v).2 ∧
    evaluate P u v = (evaluateSt (mkNormalField P) u v).2 := by
  refine ⟨rfl, rfl, ?_⟩
  simp only [evaluate, evaluateSt, rawCross, xuOf, xvOf]

/-- C3 counterexample: the inputs u_min = "1", u_max = "1" (with
well-formed coordinate expressions) do not yield a RangeError — the
parsing code returns successfully with the degenerate range (1, 1),
performing no min < max comparison at all. -/
theorem C3_counterexample_equal_bounds_accepted :
    getFunction "u" "v" "u" "1" "1" "0" "1"
      = .ok ((.var .u, .var .v, .var .u), (1, 1), (0, 1)) :=
  getFunction_equal_bounds

/-- C3 amended: _get_function fails with a sympy parse failure
(SympifyError) when an expression string is syntactically invalid, such
as "u**", but it performs no range validation: the bounds are merely
converted with float(), there is no RangeError, and equal (or inverted)
range bounds such as u_min = "1", u_max = "1" are accepted without any
error. -/
theorem C3_parse_and_range_behavior :
    getFunction "u**" "v" "u" "1" "2" "0" "1" = .error (.sympifyError "u**") ∧
    getFunction "u" "v" "u" "1" "1" "0" "1"
      = .ok ((.var .u, .var .v, .var .u), (1, 1), (0, 1)) :=
  ⟨getFunction_malformed, getFunction_equal_bounds⟩

/-- C7 counterexample: on the malformed input x = "u**" the scene
constructor does not return a typed error to its caller — it terminates
the process through sys.exit, with a generic message that does not name
the offending field. -/
theorem C7_counterexample_process_exit :
    customSceneInit "u**" "v" "u" "1" "2" "0" "1"
      = .exitProcess ("Unable to parse parameterization Sympify of expression u** failed") := by
  unfold customSceneInit
  rw [getFunction_malformed]
  rfl

/-- C7 amended: for every invalid textual input, CustomScene.__init__
catches the parse exception and terminates the process via sys.exit,
with the message "Unable to parse parameterization " followed by the
exception's diagnostic text; no typed error is returned to the caller
and the message does not identify the offending field. -/
theorem C7_invalid_input_exits_process (x y z a b c d : String) (e : PyError)
    (h : getFunction x y z a b c d = .error e) :
    customSceneInit x y z a b c d
      = .exitProcess ("Unable to parse parameterization " ++ errText e) := by
  unfold customSceneInit
  rw [h]

/-- Witness for C7 at the malformed input x = "u**". -/
theorem C7_invalid_input_exits_process_witness :
    customSceneInit "u**" "v" "u" "1" "2" "0" "1"
      = .exitProcess ("Unable to parse parameterization "
          ++ errText (.sympifyError "u**")) :=
  C7_invalid_input_exits_process "u**" "v" "u" "1" "2" "0" "1"
    (.sympifyError "u**") getFunction_malformed

/-- C9: invoked with no scene argument, run-scene prints
"Missing scene argument" and the usage text but does not exit there: it
still invokes manim (with the empty scene expansion contributing no
argument) whenever python3 is on PATH, and it exits with status 2
exactly when python3 is not found. -/
theorem C9_run_scene_missing_argument :
    (runScene [] true).output = ["Missing scene argument"] ++ usageLines ∧
    (runScene [] true).invokedManim = true ∧
    (runScene [] true).manimSceneArg = none ∧
    (runScene [] true).exitCode = none ∧
    (runScene [] false).output
      = ["Missing scene argument"] ++ usageLines ++ ["python3 not found in PATH"] ∧
    (runScene [] false).invokedManim = false ∧
    (∀ p : Bool, (runScene [] p).exitCode = some 2 ↔ p = false) := by
  decide

/-- C10: for lines-covered = c and lines-valid = n > 0, parse-coverage
prints the integer truncation of (c / n) · 100 — natural-number
division of 100 c by n — not the rounded percentage. -/
theorem C10_parse_coverage_truncates (c n : ℕ) (h : 0 < n) :
    parseCoverageOutput c n = Int.ofNat (c * 100 / n) := by
  unfold parseCoverageOutput pythonTrunc
  have hq : ((c : ℚ) / (n : ℚ)) * 100 = ((c * 100 : ℕ) : ℚ) / ((n : ℕ) : ℚ) := by
    push_cast
    ring
  have hnn : 0 ≤ ((c : ℚ) / (n : ℚ)) * 100 := by positivity
  rw [if_neg (not_lt.mpr hnn), hq, ← Nat.floor_div_eq_div (α := ℚ) (c * 100) n]
  rw [← Int.natCast_floor_eq_floor (by positivity)]
  rfl

/-- Witness for C10: 999 covered lines out of 1000 (99.9 percent)
print as 99, not as the rounded 100. -/
theorem C10_parse_coverage_truncates_witness :
    parseCoverageOutput 999 1000 = 99 := by
  have h := C10_parse_coverage_truncates 999 1000 (by norm_num)
  rw [h]
  rfl

end Gaussmap
